import Mathlib

/-!
Verification of the EventifyIt core (cf_ai_eventifyit).

This file gives a shallow embedding, in Lean 4, of the program's core:

* `src/services/validation.ts` — the normalization engine
  (`parseDate`, `parseTime`, `getTimezoneOffset`, `addOneHour`,
  `buildDescription`, `validateAndNormalizeEvent`, `toGoogleCalendarEvent`);
* `src/services/vision.ts` — the vision-response JSON parser
  (`parseEventJson`) and the calendar adapter
  (`createGoogleCalendarEvent`, `checkCalendarConflicts`);
* `src/workflow.ts` — the orchestrator (`EventifyWorkflow.run`).

Strings are modelled through their character lists.  JavaScript's
clock reads (`new Date()`), its generic `new Date(string)` parser, and
`JSON.parse` are impure or implementation-defined, so they are passed to
the embedded functions as explicit parameters; every theorem quantifies
over them.  Machine integers do not occur: all arithmetic in the source
is small non-negative integer arithmetic, modelled by `Nat`.
-/

/-- Truthiness of a JavaScript string-or-nullish value: `null`,
`undefined` and `""` are falsy. -/
def jsFalsy (x : Option String) : Bool :=
  match x with
  | none => true
  | some s => s = ""

/-- JavaScript `x || d` for a string-or-nullish `x`: returns `d` exactly
when `x` is falsy. -/
def jsOr (x : Option String) (d : String) : String :=
  match x with
  | none => d
  | some s => if s = "" then d else s

/-- Whitespace as matched by JavaScript `\s` and trimmed by
`String.prototype.trim` (restricted to the ASCII whitespace that can
actually occur in the strings this program builds). -/
def jsIsWs (c : Char) : Bool :=
  c = ' ' || c = '\t' || c = '\n' || c = '\r'

/-- JavaScript `String.prototype.trim`. -/
def jsTrim (s : String) : String :=
  String.mk (((s.data.dropWhile jsIsWs).reverse.dropWhile jsIsWs).reverse)

/-- JavaScript `String.prototype.toLowerCase`, on the ASCII range. -/
def asciiLower (s : String) : String :=
  String.mk (s.data.map (fun c =>
    if 65 ≤ c.toNat && c.toNat ≤ 90 then Char.ofNat (c.toNat + 32) else c))

/-- JavaScript `padStart(2, '0')`. -/
def pad2 (l : List Char) : List Char :=
  if 2 ≤ l.length then l else List.replicate (2 - l.length) '0' ++ l

/-- Decimal value of a digit string; models `parseInt(s, 10)` (and
`Number(s)`) on the all-digit strings this program feeds them. -/
def digitsToNat (l : List Char) : Nat :=
  l.foldl (fun n c => n * 10 + (c.toNat - 48)) 0

/-- JavaScript `String.prototype.split` with a single-character
separator. -/
def splitOnChar (sep : Char) : List Char → List (List Char)
  | [] => [[]]
  | c :: rest =>
    let r := splitOnChar sep rest
    if c = sep then [] :: r
    else
      match r with
      | h :: t => (c :: h) :: t
      | [] => [[c]]

/-- Splits a character list into its maximal leading digit run and the
rest; used to model greedy `\d{...}` regex pieces. -/
def splitDigits (l : List Char) : List Char × List Char :=
  (l.takeWhile Char.isDigit, l.dropWhile Char.isDigit)

/-- Strict lexicographic (bytewise) order on character lists.  SQLite
compares TEXT columns bytewise, and for ISO-8601 strings that share the
same fixed width and UTC offset this order coincides with chronological
order of the denoted instants. -/
def lexLt : List Char → List Char → Bool
  | [], [] => false
  | [], _ :: _ => true
  | _ :: _, [] => false
  | a :: as, b :: bs => if a < b then true else if b < a then false else lexLt as bs

/-- Reflexive lexicographic (bytewise) order on character lists. -/
def lexLe : List Char → List Char → Bool
  | [], _ => true
  | _ :: _, [] => false
  | a :: as, b :: bs => if a < b then true else if b < a then false else lexLe as bs

/-- Order on ISO datetime strings, as bytewise string order (the order
SQLite uses, and chronological order for equal-width equal-offset ISO
strings). -/
def isoLe (a b : String) : Bool := lexLe a.data b.data

/-- Strict version of `isoLe`. -/
def isoLt (a b : String) : Bool := lexLt a.data b.data

-- ============================================
-- Data model (src/services/vision.ts, validation.ts)
-- ============================================

/-- `RawEventData` from src/services/vision.ts: the unvalidated output
of the vision model; every field optional. -/
structure RawEventData where
  title : Option String := none
  start_date : Option String := none
  end_date : Option String := none
  start_time : Option String := none
  end_time : Option String := none
  location : Option String := none
  description : Option String := none
  raw_text : Option String := none
deriving Repr, DecidableEq

/-- `ValidatedEvent` from src/services/validation.ts (the inferred type
of `ValidatedEventSchema`). -/
structure ValidatedEvent where
  title : String
  startDateTime : String
  endDateTime : String
  isAllDay : Bool
  location : Option String := none
  description : Option String := none
  timezone : String
deriving Repr, DecidableEq

/-- One side (`start` or `end`) of the Google Calendar API event shape
from src/services/validation.ts (`GoogleCalendarEventSchema`). -/
structure GCalDateField where
  dateTime : Option String := none
  date : Option String := none
  timeZone : String
deriving Repr, DecidableEq

/-- `GoogleCalendarEvent` from src/services/validation.ts.  The TS field
named `end` is called `end_` here because `end` is a Lean keyword. -/
structure GoogleCalendarEvent where
  summary : String
  start : GCalDateField
  end_ : GCalDateField
  location : Option String := none
  description : Option String := none
deriving Repr, DecidableEq

-- ============================================
-- Date/time parsing (src/services/validation.ts)
-- ============================================

/-- The regex `^\d{4}-\d{2}-\d{2}$` from `parseDate`'s ISO branch. -/
def isIsoDateShape : List Char → Bool
  | [y1, y2, y3, y4, '-', m1, m2, '-', d1, d2] =>
    y1.isDigit && y2.isDigit && y3.isDigit && y4.isDigit &&
    m1.isDigit && m2.isDigit && d1.isDigit && d2.isDigit
  | _ => false

/-- The regex `^(\d{1,2})\/(\d{1,2})\/(\d{2,4})$` from `parseDate`'s
slash branch; returns the three captured groups. -/
def slashMatch (l : List Char) : Option (List Char × List Char × List Char) :=
  let (m, r1) := splitDigits l
  if m.length = 0 || 2 < m.length then none else
  match r1 with
  | '/' :: r2 =>
    let (d, r3) := splitDigits r2
    if d.length = 0 || 2 < d.length then none else
    match r3 with
    | '/' :: r4 =>
      let (y, r5) := splitDigits r4
      if 2 ≤ y.length && y.length ≤ 4 && r5.isEmpty then some (m, d, y) else none
    | _ => none
  | _ => none

/-- The twelve month names of `parseDate`, with their 1-based index
(`monthNames.indexOf(monthName) + 1`). -/
def monthNames : List (List Char × Nat) :=
  [("january".data, 1), ("february".data, 2), ("march".data, 3),
   ("april".data, 4), ("may".data, 5), ("june".data, 6),
   ("july".data, 7), ("august".data, 8), ("september".data, 9),
   ("october".data, 10), ("november".data, 11), ("december".data, 12)]

/-- If `p` is a prefix of `l`, returns the remainder of `l`. -/
def stripChars : List Char → List Char → Option (List Char)
  | [], rest => some rest
  | _ :: _, [] => none
  | p :: ps, c :: cs => if p = c then stripChars ps cs else none

/-- Tries the month-name alternation at the front of `l`. -/
def matchMonthName (l : List Char) : Option (Nat × List Char) :=
  (monthNames.filterMap (fun nm =>
    match stripChars nm.1 l with
    | some rest => some (nm.2, rest)
    | none => none)).head?

/-- The optional year part `(?:,?\s*(\d{4}))?$` of `parseDate`'s
long-form branch, applied to the text following the day digits. -/
def yearTail (l : List Char) : Option (List Char) :=
  let l1 := match l with
    | ',' :: r => r
    | r => r
  let l2 := l1.dropWhile jsIsWs
  let (y, r) := splitDigits l2
  if y.length = 4 && r.isEmpty then some y else none

/-- The regex
`^(month)\s+(\d{1,2})(?:,?\s*(\d{4}))?$` of `parseDate`'s long-form
branch (month alternation abbreviated); returns month index, day digits
and the optional year digits.  When day digits and year digits are
adjacent the regex engine backtracks on the greedy `\d{1,2}` day; the
arms on `ds.length` below reproduce that backtracking. -/
def monthMatch (l : List Char) : Option (Nat × List Char × Option (List Char)) :=
  match matchMonthName l with
  | none => none
  | some (mi, r1) =>
    let ws := r1.takeWhile jsIsWs
    let r2 := r1.dropWhile jsIsWs
    if ws.isEmpty then none else
    let (ds, r3) := splitDigits r2
    if r3.isEmpty then
      if ds.length = 1 || ds.length = 2 then some (mi, ds, none)
      else if ds.length = 5 then some (mi, ds.take 1, some (ds.drop 1))
      else if ds.length = 6 then some (mi, ds.take 2, some (ds.drop 2))
      else none
    else
      if ds.length = 0 || 2 < ds.length then none else
      match yearTail r3 with
      | some y => some (mi, ds, some y)
      | none => none

/-- `parseDate` from src/services/validation.ts.  `jsDate` models the
`new Date(cleaned)` generic fallback (returning the `toISOString` date
part, or `none` for an invalid date); it is impure and
implementation-defined in JavaScript, so it is an explicit parameter
here. -/
def parseDate (jsDate : String → Option String) (dateStr : Option String)
    (defaultYear : Nat) : Option String :=
  match dateStr with
  | none => none
  | some ds =>
    if ds = "" then none else
    let cleaned := jsTrim ds
    if isIsoDateShape cleaned.data then some cleaned else
    match slashMatch cleaned.data with
    | some (m, d, y) =>
      let fullYear := if y.length = 2 then '2' :: '0' :: y else y
      some (String.mk (fullYear ++ '-' :: pad2 m ++ '-' :: pad2 d))
    | none =>
      match monthMatch (asciiLower cleaned).data with
      | some (mi, day, yOpt) =>
        let fullYear := match yOpt with
          | some y => y
          | none => (toString defaultYear).data
        some (String.mk (fullYear ++ '-' :: pad2 (toString mi).data ++ '-' :: pad2 day))
      | none => jsDate cleaned

/-- The regex `^\d{1,2}:\d{2}$` from `parseTime`'s 24-hour branch,
returning the `split(':')` pieces. -/
def match24h : List Char → Option (List Char × List Char)
  | [a, ':', b, c] =>
    if a.isDigit && b.isDigit && c.isDigit then some ([a], [b, c]) else none
  | [a, b, ':', c, d] =>
    if a.isDigit && b.isDigit && c.isDigit && d.isDigit then
      some ([a, b], [c, d]) else none
  | _ => none

/-- The regex `^(\d{1,2})(?::(\d{2}))?\s*(am|pm)$` from `parseTime`'s
12-hour branch (input already lowercased); returns hour digits, the
optional minute digits, and whether the suffix was `pm`. -/
def matchAmPm (l : List Char) : Option (List Char × Option (List Char) × Bool) :=
  let (hs, r1) := splitDigits l
  if hs.length = 0 || 2 < hs.length then none else
  let (ms?, r2) : Option (List Char) × List Char :=
    match r1 with
    | ':' :: rest =>
      let (ms, r) := splitDigits rest
      if ms.length = 2 then (some ms, r) else (none, r1)
    | _ => (none, r1)
  let r3 := r2.dropWhile jsIsWs
  match r3 with
  | ['a', 'm'] => some (hs, ms?, false)
  | ['p', 'm'] => some (hs, ms?, true)
  | _ => none

/-- `parseTime` from src/services/validation.ts. -/
def parseTime (timeStr : Option String) : Option String :=
  match timeStr with
  | none => none
  | some ts =>
    if ts = "" then none else
    let cleaned := asciiLower (jsTrim ts)
    match match24h cleaned.data with
    | some (hs, ms) => some (String.mk (pad2 hs ++ ':' :: ms))
    | none =>
      match matchAmPm cleaned.data with
      | some (hs, ms?, isPm) =>
        let mins := match ms? with
          | some m => m
          | none => ['0', '0']
        let h := digitsToNat hs
        let hour24 :=
          if isPm && h ≠ 12 then h + 12
          else if !isPm && h = 12 then 0
          else h
        some (String.mk (pad2 (toString hour24).data ++ ':' :: mins))
      | none => none

/-- `getTimezoneOffset` from src/services/validation.ts: fixed lookup
table, defaulting to US Eastern. -/
def getTimezoneOffset (timezone : String) : String :=
  if timezone = "America/New_York" then "-05:00"
  else if timezone = "America/Chicago" then "-06:00"
  else if timezone = "America/Denver" then "-07:00"
  else if timezone = "America/Los_Angeles" then "-08:00"
  else if timezone = "America/Phoenix" then "-07:00"
  else if timezone = "America/Anchorage" then "-09:00"
  else if timezone = "Pacific/Honolulu" then "-10:00"
  else if timezone = "UTC" then "+00:00"
  else if timezone = "Europe/London" then "+00:00"
  else if timezone = "Europe/Paris" then "+01:00"
  else if timezone = "Asia/Tokyo" then "+09:00"
  else "-05:00"

/-- `addOneHour` from src/services/validation.ts: splits `HH:MM` on
`':'`, adds one to the hour modulo 24, re-pads. -/
def addOneHour (time : String) : String :=
  let parts := splitOnChar ':' time.data
  let hours := digitsToNat (parts.getD 0 [])
  let mins := digitsToNat (parts.getD 1 [])
  let newHours := (hours + 1) % 24
  String.mk (pad2 (toString newHours).data ++ ':' :: pad2 (toString mins).data)

/-- JavaScript `Array.prototype.join('\n')`. -/
def joinNl : List String → String
  | [] => ""
  | [p] => p
  | p :: rest => p ++ "\n" ++ joinNl rest

/-- `buildDescription` from src/services/validation.ts: pushes the
extracted description (if truthy) then the two footer lines, and joins
with newlines. -/
def buildDescription (raw : RawEventData) : Option String :=
  let parts : List String :=
    (match raw.description with
     | some d => if d = "" then [] else [d]
     | none => []) ++ ["---", "Created by EventifyIt on Cloudflare"]
  some (joinNl parts)

-- ============================================
-- The Zod schema check (src/services/validation.ts)
-- ============================================

/-- The offset alternation `(([+-]\d{2}(:?\d{2})?)|Z)$` of Zod's
datetime regex (offset mode). -/
def zodOffsetTail : List Char → Bool
  | ['Z'] => true
  | s :: a :: b :: rest =>
    (s = '+' || s = '-') && a.isDigit && b.isDigit &&
    (match rest with
     | [] => true
     | [':', c, d] => c.isDigit && d.isDigit
     | [c, d] => c.isDigit && d.isDigit
     | _ => false)
  | _ => false

/-- The optional fraction `(\.\d+)?` followed by the offset; the digits
are consumed greedily, which agrees with the regex because no offset
begins with a digit. -/
def zodTail : List Char → Bool
  | '.' :: rest =>
    let (ds, r) := splitDigits rest
    1 ≤ ds.length && zodOffsetTail r
  | l => zodOffsetTail l

/-- Zod's `z.string().datetime({ offset: true })` check used by
`ValidatedEventSchema`: the anchored regex
`\d{4}-\d{2}-\d{2}T\d{2}:\d{2}:\d{2}(\.\d+)?(([+-]\d{2}(:?\d{2})?)|Z)`.
The literal separator positions are checked by equations rather than by
literal patterns so that the match reduces on partially known lists. -/
def zodDatetimeList : List Char → Bool
  | y1 :: y2 :: y3 :: y4 :: c5 :: m1 :: m2 :: c8 :: d1 :: d2 :: cT ::
    h1 :: h2 :: cA :: n1 :: n2 :: cB :: s1 :: s2 :: rest =>
    y1.isDigit && y2.isDigit && y3.isDigit && y4.isDigit && c5 = '-' &&
    m1.isDigit && m2.isDigit && c8 = '-' && d1.isDigit && d2.isDigit &&
    cT = 'T' && h1.isDigit && h2.isDigit && cA = ':' &&
    n1.isDigit && n2.isDigit && cB = ':' &&
    s1.isDigit && s2.isDigit && zodTail rest
  | _ => false

/-- String form of `zodDatetimeList`. -/
def zodDatetime (s : String) : Bool := zodDatetimeList s.data

/-- `ValidatedEventSchema.safeParse` success condition: non-empty title
and both datetimes matching Zod's offset datetime regex (the remaining
fields are unconstrained strings/booleans/optionals). -/
def validEventCheck (e : ValidatedEvent) : Bool :=
  decide (1 ≤ e.title.length) && zodDatetime e.startDateTime && zodDatetime e.endDateTime

-- ============================================
-- validateAndNormalizeEvent (src/services/validation.ts)
-- ============================================

/-- The local `startDate` of `validateAndNormalizeEvent`:
`parseDate(raw.start_date, currentYear) || getTodayDate()`. -/
def normStartDate (jsDate : String → Option String) (today : String)
    (currentYear : Nat) (raw : RawEventData) : String :=
  jsOr (parseDate jsDate raw.start_date currentYear) today

/-- The local `endDate` of `validateAndNormalizeEvent`:
`parseDate(raw.end_date, currentYear) || startDate`. -/
def normEndDate (jsDate : String → Option String) (today : String)
    (currentYear : Nat) (raw : RawEventData) : String :=
  jsOr (parseDate jsDate raw.end_date currentYear) (normStartDate jsDate today currentYear raw)

/-- The local `start` of `validateAndNormalizeEvent`'s timed branch:
`startTime || '09:00'`. -/
def normStartTime (raw : RawEventData) : String :=
  jsOr (parseTime raw.start_time) "09:00"

/-- The local `end` of `validateAndNormalizeEvent`'s timed branch:
`endTime || addOneHour(start)`. -/
def normEndTime (raw : RawEventData) : String :=
  jsOr (parseTime raw.end_time) (addOneHour (normStartTime raw))

/-- The event object built by `validateAndNormalizeEvent`
(src/services/validation.ts lines 172-213) before the Zod schema
check. -/
def mkNormEvent (jsDate : String → Option String) (today : String)
    (currentYear : Nat) (raw : RawEventData) (timezone : String) : ValidatedEvent :=
  let startDate := normStartDate jsDate today currentYear raw
  let endDate := normEndDate jsDate today currentYear raw
  let isAllDay := jsFalsy (parseTime raw.start_time)
  let tzOffset := getTimezoneOffset timezone
  let startDateTime :=
    if isAllDay then startDate ++ "T00:00:00" ++ tzOffset
    else startDate ++ "T" ++ normStartTime raw ++ ":00" ++ tzOffset
  let endDateTime :=
    if isAllDay then endDate ++ "T23:59:59" ++ tzOffset
    else endDate ++ "T" ++ normEndTime raw ++ ":00" ++ tzOffset
  { title := jsOr raw.title "Untitled Event"
    startDateTime := startDateTime
    endDateTime := endDateTime
    isAllDay := isAllDay
    timezone := timezone
    location :=
      match raw.location with
      | none => none
      | some l => let t := jsTrim l; if t = "" then none else some t
    description := buildDescription raw }

/-- `validateAndNormalizeEvent` from src/services/validation.ts.
`jsDate` models the `new Date(...)` fallback inside `parseDate`;
`today` models `getTodayDate()` and `currentYear` models
`new Date().getFullYear()` (both clock reads).  A `ValidationError`
throw is modelled as `Except.error`. -/
def validateAndNormalizeEvent (jsDate : String → Option String)
    (today : String) (currentYear : Nat) (raw : RawEventData)
    (timezone : String := "America/New_York") : Except String ValidatedEvent :=
  let event := mkNormEvent jsDate today currentYear raw timezone
  if validEventCheck event then Except.ok event else Except.error "Validation failed"

/-- JavaScript `s.split('T')[0]`: the prefix before the first `'T'`. -/
def splitT (s : String) : String :=
  String.mk (s.data.takeWhile (fun c => c != 'T'))

/-- `toGoogleCalendarEvent` from src/services/validation.ts. -/
def toGoogleCalendarEvent (event : ValidatedEvent) : GoogleCalendarEvent :=
  if event.isAllDay then
    { summary := event.title
      start := { date := some (splitT event.startDateTime), timeZone := event.timezone }
      end_ := { date := some (splitT event.endDateTime), timeZone := event.timezone }
      location := event.location
      description := event.description }
  else
    { summary := event.title
      start := { dateTime := some event.startDateTime, timeZone := event.timezone }
      end_ := { dateTime := some event.endDateTime, timeZone := event.timezone }
      location := event.location
      description := event.description }

-- ============================================
-- parseEventJson (src/services/vision.ts)
-- ============================================

/-- The global replacement `replace(/\\_/g, '_')` from `parseEventJson`. -/
def unescapeUnderscores : List Char → List Char
  | [] => []
  | '\\' :: '_' :: rest => '_' :: unescapeUnderscores rest
  | c :: rest => c :: unescapeUnderscores rest

/-- The regex `/\{[\s\S]*\}/` from `parseEventJson`: the segment from
the first `'{'` through the last `'}'` (greedy), when both exist in
that order. -/
def braceMatch : List Char → Option (List Char)
  | [] => none
  | c :: rest =>
    if c = '{' then
      let kept := ((c :: rest).reverse.dropWhile (fun d => d != '}')).reverse
      if kept.isEmpty then none else some kept
    else braceMatch rest

/-- JavaScript `s.substring(0, n)`. -/
def substringTake (n : Nat) (s : String) : String := String.mk (s.data.take n)

/-- The string handed to `JSON.parse` by `parseEventJson`: trim, unescape
`\_`, extract a markdown code fence, extract the outermost braces.
`fenceExtract` models the lazy regex
`/(three backticks)(?:json)?\s*([\s\S]*?)\s*(three backticks)/` capture
(an arbitrary partial function; every theorem quantifies over it). -/
def jsonCandidate (fenceExtract : String → Option String) (responseText : String) : String :=
  let j1 := jsTrim responseText
  let j2 := String.mk (unescapeUnderscores j1.data)
  let j3 := match fenceExtract j2 with
    | some inner => jsTrim inner
    | none => j2
  match braceMatch j3.data with
  | some obj => String.mk obj
  | none => j3

/-- `parseEventJson` from src/services/vision.ts.  `jsonParse` models
`JSON.parse` (returning `none` when it throws); the `catch` branch of
the source is the `none` arm. -/
def parseEventJson (jsonParse : String → Option RawEventData)
    (fenceExtract : String → Option String) (responseText : String) : RawEventData :=
  let jsonString := jsonCandidate fenceExtract responseText
  match jsonParse jsonString with
  | some parsed => { parsed with raw_text := some (substringTake 500 responseText) }
  | none =>
    { title := some "Unknown Event"
      description := some ("Could not extract event details. Raw text: " ++ substringTake 200 responseText)
      raw_text := some responseText }

-- ============================================
-- Conflict detection (src/services/calendar.ts part of vision.ts bundle)
-- ============================================

/-- A row of the D1 `events` table (the columns read by
`checkCalendarConflicts`). -/
structure EventRow where
  user_id : String
  title : String
  start_datetime : String
  end_datetime : String
  google_event_id : Option String := none
deriving Repr, DecidableEq

/-- `ConflictingEvent` from src/services/calendar.ts.  The TS field
named `end` is called `end_` here because `end` is a Lean keyword. -/
structure ConflictingEvent where
  title : String
  start : String
  end_ : String
  googleEventId : Option String := none
deriving Repr, DecidableEq

/-- The SQL `WHERE` clause of `checkCalendarConflicts`:
`user_id = ? AND start_datetime < ?(endDateTime) AND end_datetime >
?(startDateTime)`, with SQLite's bytewise TEXT comparison. -/
def conflictWhere (userId startDateTime endDateTime : String) (r : EventRow) : Bool :=
  r.user_id = userId && isoLt r.start_datetime endDateTime &&
    isoLt startDateTime r.end_datetime

/-- The `ORDER BY start_datetime` comparison of `checkCalendarConflicts`. -/
def conflictRowLe (a b : EventRow) : Bool := isoLe a.start_datetime b.start_datetime

/-- The row-to-result projection of `checkCalendarConflicts`. -/
def conflictProj (r : EventRow) : ConflictingEvent :=
  { title := r.title
    start := r.start_datetime
    end_ := r.end_datetime
    googleEventId := r.google_event_id }

/-- `checkCalendarConflicts` from src/services/calendar.ts, with the
embedded SQL query evaluated over a list of rows: `WHERE` filter,
`ORDER BY start_datetime` sort (any sort satisfying the ordering models
SQL, which fixes no order among ties), `LIMIT 10`, then the row
mapping. -/
def checkCalendarConflicts (db : List EventRow)
    (userId startDateTime endDateTime : String) : List ConflictingEvent :=
  ((List.insertionSort (fun a b => conflictRowLe a b = true)
      (db.filter (conflictWhere userId startDateTime endDateTime))).take 10).map
    conflictProj

-- ============================================
-- Calendar publishing and OAuth (src/services/calendar.ts)
-- ============================================

/-- `CalendarEventResponse` from src/services/calendar.ts. -/
structure CalendarEventResponse where
  id : String
  htmlLink : String
  status : String
  summary : String
deriving Repr, DecidableEq

/-- The observable part of a `fetch` response to the calendar create
endpoint: `ok`, `status`, the error body text, and (when ok) the parsed
`CalendarEventResponse`. -/
structure HttpResp where
  ok : Bool
  status : Nat
  body : String
  result : CalendarEventResponse
deriving Repr, DecidableEq

/-- `createGoogleCalendarEvent` from src/services/calendar.ts.  `http`
models the remote `fetch` of the create endpoint, as a function of the
posted event body, the bearer token and the calendar id.  A 401
response throws the distinguished `OAUTH_EXPIRED` error. -/
def createGoogleCalendarEvent (http : GoogleCalendarEvent → String → String → HttpResp)
    (accessToken : String) (event : ValidatedEvent)
    (calendarId : String := "primary") : Except String CalendarEventResponse :=
  let googleEvent := toGoogleCalendarEvent event
  let response := http googleEvent accessToken calendarId
  if !response.ok then
    if response.status = 401 then Except.error "OAUTH_EXPIRED"
    else Except.error ("Google Calendar API error: " ++ toString response.status ++ " - " ++ response.body)
  else Except.ok response.result

/-- The per-user token row of the D1 `user_tokens` table, as read by
`EventifyWorkflow.getOAuthToken`. -/
structure TokenRecord where
  accessToken : String
  refreshToken : String
  expiresAt : String
deriving Repr, DecidableEq

/-- The observable part of the OAuth token-refresh `fetch` response
used by `refreshOAuthToken`. -/
structure RefreshHttp where
  ok : Bool
  access_token : String
  expires_in : Nat
  refresh_token : Option String := none
deriving Repr, DecidableEq

/-- `refreshOAuthToken` from src/services/calendar.ts: on HTTP failure
throws `Failed to refresh OAuth token`; otherwise keeps the previous
refresh token unless the response carries a new one
(`tokens.refresh_token || refreshToken`) and returns the new record
(`expiryIso` models `new Date(Date.now() + expires_in*1000).toISOString()`;
the D1 `UPDATE` writes back the same record). -/
def refreshOAuthToken (http : RefreshHttp) (expiryIso : Nat → String)
    (refreshToken : String) : Except String TokenRecord :=
  if !http.ok then Except.error "Failed to refresh OAuth token"
  else
    Except.ok
      { accessToken := http.access_token
        refreshToken := jsOr http.refresh_token refreshToken
        expiresAt := expiryIso http.expires_in }

-- ============================================
-- The orchestrator (src/workflow.ts, EventifyWorkflow.run)
-- ============================================

/-- `WorkflowParams` from src/workflow.ts. -/
structure WorkflowParams where
  imageKey : String
  userId : String
  timezone : Option String := none
  calendarId : Option String := none
deriving Repr, DecidableEq

/-- `WorkflowResult` from src/workflow.ts. -/
structure WorkflowResult where
  success : Bool
  event : Option ValidatedEvent := none
  calendarLink : Option String := none
  conflicts : Option (List ConflictingEvent) := none
  error : Option String := none
deriving Repr, DecidableEq

/-- The environment of one orchestrator run: every external effect the
steps of `EventifyWorkflow.run` perform, as explicit data.  A step
whose effect fails persistently surfaces as `Except.error` (the
workflow engine's per-step retries eventually fail the step, which
fails the run). -/
structure WorkflowEnv where
  defaultTimezone : Option String := none
  imageFound : Bool
  visionResult : Except String RawEventData
  jsDate : String → Option String
  today : String
  currentYear : Nat
  d1Events : Except String (List EventRow)
  tokenRow : Except String (Option TokenRecord)
  isExpired : String → Bool
  refreshHttp : RefreshHttp
  expiryIso : Nat → String
  calendarHttp : GoogleCalendarEvent → String → String → HttpResp
  saveResult : Except String Unit

/-- The destructuring default
`timezone = this.env.DEFAULT_TIMEZONE || 'America/New_York'` of
`EventifyWorkflow.run` (applies only when the payload field is
undefined). -/
def resolveTimezone (env : WorkflowEnv) (p : WorkflowParams) : String :=
  match p.timezone with
  | some t => t
  | none => jsOr env.defaultTimezone "America/New_York"

/-- The destructuring default `calendarId = 'primary'` of
`EventifyWorkflow.run`. -/
def resolveCalendarId (p : WorkflowParams) : String :=
  p.calendarId.getD "primary"

/-- `EventifyWorkflow.run` from src/workflow.ts: the five `step.do`
blocks in sequence.  Step 1 throws `Image not found` when the R2 key
does not resolve, otherwise yields the vision extraction; step 2 runs
the normalization engine (the KV recovery-cache put has no observable
effect on the run's value); step 3 runs the conflict query with no
error handler; step 4 loads the token, throws when absent, refreshes
when the stored expiry has passed, then calls the calendar create with
no handler for its errors; step 5 performs the save/cleanup.  Any step
error aborts the run. -/
def runWorkflow (env : WorkflowEnv) (p : WorkflowParams) : Except String WorkflowResult := do
  let timezone := resolveTimezone env p
  let calendarId := resolveCalendarId p
  let rawEventData ← if env.imageFound then env.visionResult
    else Except.error ("Image not found: " ++ p.imageKey)
  let validatedEvent ← validateAndNormalizeEvent env.jsDate env.today env.currentYear
    rawEventData timezone
  let conflicts ← match env.d1Events with
    | Except.error e => Except.error e
    | Except.ok rows =>
      Except.ok (checkCalendarConflicts rows p.userId
        validatedEvent.startDateTime validatedEvent.endDateTime)
  let token? ← env.tokenRow
  let token ← match token? with
    | none => Except.error "No OAuth token found. Please authenticate with Google first."
    | some t => Except.ok t
  let token ← if token.expiresAt ≠ "" && env.isExpired token.expiresAt then
      refreshOAuthToken env.refreshHttp env.expiryIso token.refreshToken
    else Except.ok token
  let calendarResult ← createGoogleCalendarEvent env.calendarHttp token.accessToken
    validatedEvent calendarId
  let _ ← env.saveResult
  Except.ok
    { success := true
      event := some validatedEvent
      calendarLink := some calendarResult.htmlLink
      conflicts := if 0 < conflicts.length then some conflicts else none }

-- ============================================
-- Concrete scenario data for the workflow theorems
-- ============================================

/-- Concrete raw extraction shared by the workflow scenarios. -/
def sampleRaw : RawEventData :=
  { title := some "Study Group", start_date := some "3/5/25", start_time := some "2pm" }

/-- Concrete stored token shared by the workflow scenarios. -/
def sampleToken : TokenRecord :=
  { accessToken := "OLD", refreshToken := "REF", expiresAt := "2099-01-01T00:00:00Z" }

/-- Concrete calendar API response shared by the workflow scenarios. -/
def sampleResp : CalendarEventResponse :=
  { id := "evt1", htmlLink := "https://calendar.example/evt1"
    status := "confirmed", summary := "Study Group" }

/-- A workflow environment in which every step succeeds. -/
def baseEnv : WorkflowEnv :=
  { defaultTimezone := none
    imageFound := true
    visionResult := Except.ok sampleRaw
    jsDate := fun _ => none
    today := "2026-10-11"
    currentYear := 2026
    d1Events := Except.ok []
    tokenRow := Except.ok (some sampleToken)
    isExpired := fun _ => false
    refreshHttp := { ok := true, access_token := "NEW", expires_in := 3600 }
    expiryIso := fun _ => "2099-01-01T00:00:00Z"
    calendarHttp := fun _ _ _ => { ok := true, status := 200, body := "", result := sampleResp }
    saveResult := Except.ok () }

/-- Concrete workflow parameters shared by the workflow scenarios. -/
def sampleParams : WorkflowParams := { imageKey := "images/x.png", userId := "u" }

/-- The environment of the C3 scenario: the remote create answers 401
to the stored access token but would succeed with the refreshed one. -/
def c3Env : WorkflowEnv :=
  { baseEnv with
    calendarHttp := fun _ tok _ =>
      if tok = "NEW" then { ok := true, status := 200, body := "", result := sampleResp }
      else { ok := false, status := 401, body := "Invalid Credentials", result := sampleResp } }

-- ============================================
-- General lemmas about the helpers
-- ============================================

theorem str_data_append (a b : String) : (a ++ b).data = a.data ++ b.data := rfl

theorem lexLe_refl (l : List Char) : lexLe l l = true := by
  induction l with
  | nil => rfl
  | cons a as ih => simp [lexLe, lt_irrefl, ih]

theorem lexLe_append {a b : List Char} (x y : List Char)
    (hlen : a.length = b.length) (hab : lexLe a b = true)
    (hxy : a = b → lexLe x y = true) :
    lexLe (a ++ x) (b ++ y) = true := by
  induction a generalizing b with
  | nil =>
    cases b with
    | nil => simpa using hxy rfl
    | cons d bs => simp at hlen
  | cons c as ih =>
    cases b with
    | nil => simp at hlen
    | cons d bs =>
      simp only [List.cons_append, lexLe]
      rcases lt_trichotomy c d with h | h | h
      · simp [h]
      · subst h
        simp only [lt_irrefl, if_false]
        simp only [lexLe, lt_irrefl, if_false] at hab
        exact ih (by simpa using hlen) hab (fun he => hxy (by rw [he]))
      · simp only [lexLe, if_neg (asymm h), if_pos h] at hab
        exact absurd hab (by simp)

theorem lexLe_total (a b : List Char) : (lexLe a b || lexLe b a) = true := by
  induction a generalizing b with
  | nil => simp [lexLe]
  | cons c as ih =>
    cases b with
    | nil => simp [lexLe]
    | cons d bs =>
      rcases lt_trichotomy c d with h | h | h
      · simp [lexLe, h]
      · subst h
        simp only [lexLe, lt_irrefl, if_false]
        exact ih bs
      · simp [lexLe, h, asymm h]

theorem lexLe_trans {a b c : List Char} (hab : lexLe a b = true)
    (hbc : lexLe b c = true) : lexLe a c = true := by
  induction a generalizing b c with
  | nil => cases c <;> simp [lexLe]
  | cons x as ih =>
    cases b with
    | nil => simp [lexLe] at hab
    | cons y bs =>
      cases c with
      | nil => simp [lexLe] at hbc
      | cons z cs =>
        simp only [lexLe] at hab hbc ⊢
        rcases lt_trichotomy x y with hxy | hxy | hxy
        · rcases lt_trichotomy y z with hyz | hyz | hyz
          · simp [lt_trans hxy hyz]
          · subst hyz; simp [hxy]
          · simp [hyz, asymm hyz] at hbc
        · subst hxy
          simp only [lt_irrefl, if_false] at hab
          rcases lt_trichotomy x z with hyz | hyz | hyz
          · simp [hyz]
          · subst hyz
            simp only [lt_irrefl, if_false] at hbc ⊢
            exact ih hab hbc
          · simp [hyz, asymm hyz] at hbc
        · simp [hxy, asymm hxy] at hab

theorem parseTime_ne_empty {s : Option String} {t : String}
    (h : parseTime s = some t) : t ≠ "" := by
  unfold parseTime at h
  dsimp only at h
  split at h
  · exact absurd h (by simp)
  · split at h
    · exact absurd h (by simp)
    · split at h
      · simp only [Option.some.injEq] at h
        intro he
        rw [he] at h
        have hd := congrArg String.data h
        simp at hd
      · split at h
        · simp only [Option.some.injEq] at h
          intro he
          rw [he] at h
          have hd := congrArg String.data h
          simp at hd
        · exact absurd h (by simp)

theorem validateAndNormalizeEvent_ok {jsd : String → Option String}
    {today : String} {y : Nat} {raw : RawEventData} {tz : String}
    {ev : ValidatedEvent} :
    validateAndNormalizeEvent jsd today y raw tz = Except.ok ev ↔
      validEventCheck (mkNormEvent jsd today y raw tz) = true ∧
      ev = mkNormEvent jsd today y raw tz := by
  unfold validateAndNormalizeEvent
  dsimp only
  split <;> rename_i h <;> simp [h, eq_comm]

theorem mkNormEvent_isAllDay (jsd : String → Option String) (today : String)
    (y : Nat) (raw : RawEventData) (tz : String) :
    (mkNormEvent jsd today y raw tz).isAllDay = jsFalsy (parseTime raw.start_time) := rfl

theorem mkNormEvent_startDateTime (jsd : String → Option String) (today : String)
    (y : Nat) (raw : RawEventData) (tz : String) :
    (mkNormEvent jsd today y raw tz).startDateTime =
      if jsFalsy (parseTime raw.start_time) then
        normStartDate jsd today y raw ++ "T00:00:00" ++ getTimezoneOffset tz
      else
        normStartDate jsd today y raw ++ "T" ++ normStartTime raw ++ ":00" ++
          getTimezoneOffset tz := rfl

theorem mkNormEvent_endDateTime (jsd : String → Option String) (today : String)
    (y : Nat) (raw : RawEventData) (tz : String) :
    (mkNormEvent jsd today y raw tz).endDateTime =
      if jsFalsy (parseTime raw.start_time) then
        normEndDate jsd today y raw ++ "T23:59:59" ++ getTimezoneOffset tz
      else
        normEndDate jsd today y raw ++ "T" ++ normEndTime raw ++ ":00" ++
          getTimezoneOffset tz := rfl

theorem mkNormEvent_description (jsd : String → Option String) (today : String)
    (y : Nat) (raw : RawEventData) (tz : String) :
    (mkNormEvent jsd today y raw tz).description = buildDescription raw := rfl

/-- C7: for every raw input and timezone, the normalized event is
all-day exactly when no start time could be parsed from the
`start_time` field, regardless of the date fields. -/
theorem c7_allday_iff_no_start_time {jsd : String → Option String}
    {today : String} {y : Nat} {raw : RawEventData} {tz : String}
    {ev : ValidatedEvent}
    (hok : validateAndNormalizeEvent jsd today y raw tz = Except.ok ev) :
    ev.isAllDay = true ↔ parseTime raw.start_time = none := by
  obtain ⟨-, hev⟩ := validateAndNormalizeEvent_ok.mp hok
  subst hev
  rw [mkNormEvent_isAllDay]
  cases hpt : parseTime raw.start_time with
  | none => simp [jsFalsy]
  | some t => simp [jsFalsy, parseTime_ne_empty hpt]

/-- Witness for C7 at a concrete input: an extraction with a title but
no start time normalizes successfully and is marked all-day. -/
theorem c7_witness :
    ∃ ev, validateAndNormalizeEvent (fun _ => none) "2026-10-11" 2026
      { title := some "Fair" } "UTC" = Except.ok ev ∧ ev.isAllDay = true := by
  refine ⟨mkNormEvent (fun _ => none) "2026-10-11" 2026 { title := some "Fair" } "UTC",
    rfl, ?_⟩
  exact (@c7_allday_iff_no_start_time (fun _ => none) "2026-10-11" 2026
    { title := some "Fair" } "UTC" _ rfl).mpr rfl

/-- C10: every successfully normalized event carries a defined
description ending in the fixed provenance footer. -/
theorem c10_description_footer {jsd : String → Option String}
    {today : String} {y : Nat} {raw : RawEventData} {tz : String}
    {ev : ValidatedEvent}
    (hok : validateAndNormalizeEvent jsd today y raw tz = Except.ok ev) :
    ∃ d, ev.description = some d ∧
      ∃ p, d = p ++ "---\nCreated by EventifyIt on Cloudflare" := by
  obtain ⟨-, hev⟩ := validateAndNormalizeEvent_ok.mp hok
  subst hev
  rw [mkNormEvent_description]
  unfold buildDescription
  cases hd : raw.description with
  | none => exact ⟨_, rfl, "", rfl⟩
  | some dsc =>
    by_cases he : dsc = ""
    · subst he
      exact ⟨_, rfl, "", rfl⟩
    · dsimp only
      rw [if_neg he]
      refine ⟨_, rfl, dsc ++ "\n", ?_⟩
      apply String.ext
      simp [joinNl, str_data_append]

/-- Witness for C10 at a concrete input: with no extracted description
the output description is exactly the footer. -/
theorem c10_witness :
    ∃ ev, validateAndNormalizeEvent (fun _ => none) "2026-10-11" 2026
      { title := some "Fair" } "UTC" = Except.ok ev ∧
      ∃ d, ev.description = some d ∧
        ∃ p, d = p ++ "---\nCreated by EventifyIt on Cloudflare" := by
  refine ⟨mkNormEvent (fun _ => none) "2026-10-11" 2026 { title := some "Fair" } "UTC",
    rfl, ?_⟩
  exact @c10_description_footer (fun _ => none) "2026-10-11" 2026
    { title := some "Fair" } "UTC" _ rfl

/-- C5: on a timed event, a missing end date defaults to the start
date, the start instant carries the parsed start time, and a missing
end time defaults to the start time plus one hour (hour modulo 24, via
`addOneHour`) on the end date, which is then the same day. -/
theorem c5_end_defaulting {jsd : String → Option String} {today : String}
    {y : Nat} {raw : RawEventData} {tz : String} {ev : ValidatedEvent} {st : String}
    (hok : validateAndNormalizeEvent jsd today y raw tz = Except.ok ev)
    (hst : parseTime raw.start_time = some st) :
    (parseDate jsd raw.end_date y = none →
      normEndDate jsd today y raw = normStartDate jsd today y raw) ∧
    ev.startDateTime =
      normStartDate jsd today y raw ++ "T" ++ st ++ ":00" ++ getTimezoneOffset tz ∧
    (parseTime raw.end_time = none →
      ev.endDateTime =
        normEndDate jsd today y raw ++ "T" ++ addOneHour st ++ ":00" ++
          getTimezoneOffset tz) := by
  obtain ⟨-, hev⟩ := validateAndNormalizeEvent_ok.mp hok
  subst hev
  have hne := parseTime_ne_empty hst
  have hfal : jsFalsy (parseTime raw.start_time) = false := by
    rw [hst]; simp [jsFalsy, hne]
  refine ⟨?_, ?_, ?_⟩
  · intro hed
    unfold normEndDate
    rw [hed]
    rfl
  · rw [mkNormEvent_startDateTime, hfal]
    simp only [Bool.false_eq_true, if_false]
    unfold normStartTime
    rw [hst]
    simp [jsOr, hne]
  · intro het
    rw [mkNormEvent_endDateTime, hfal]
    simp only [Bool.false_eq_true, if_false]
    unfold normEndTime normStartTime
    rw [het, hst]
    simp [jsOr, hne]

/-- Witness for C5 at the spec's concrete input: start time `3:00 PM`
with no end date and no end time yields end `16:00` on the same day. -/
theorem c5_witness :
    ∃ ev, validateAndNormalizeEvent (fun _ => none) "2026-10-11" 2026
      { start_date := some "2025-03-05", start_time := some "3:00 PM" }
      "America/New_York" = Except.ok ev ∧
      ev.startDateTime = "2025-03-05T15:00:00-05:00" ∧
      ev.endDateTime = "2025-03-05T16:00:00-05:00" := by
  refine ⟨mkNormEvent (fun _ => none) "2026-10-11" 2026
    { start_date := some "2025-03-05", start_time := some "3:00 PM" } "America/New_York",
    rfl, ?_, ?_⟩
  · exact (@c5_end_defaulting (fun _ => none) "2026-10-11" 2026
      { start_date := some "2025-03-05", start_time := some "3:00 PM" }
      "America/New_York" _ "15:00" rfl rfl).2.1.trans rfl
  · exact ((@c5_end_defaulting (fun _ => none) "2026-10-11" 2026
      { start_date := some "2025-03-05", start_time := some "3:00 PM" }
      "America/New_York" _ "15:00" rfl rfl).2.2 rfl).trans rfl

/-- C6: the end-to-end scenario — `Study Group`, `3/5/25`, `2pm` in
America/New_York normalizes to 14:00-15:00 on 2025-03-05 with the fixed
Eastern offset, not all-day.  The clock parameters are irrelevant and
universally quantified. -/
theorem c6_end_to_end (jsd : String → Option String) (today : String) (y : Nat) :
    validateAndNormalizeEvent jsd today y
      { title := some "Study Group", start_date := some "3/5/25", start_time := some "2pm" }
      "America/New_York" =
    Except.ok
      { title := "Study Group"
        startDateTime := "2025-03-05T14:00:00-05:00"
        endDateTime := "2025-03-05T15:00:00-05:00"
        isAllDay := false
        timezone := "America/New_York"
        location := none
        description := some "---\nCreated by EventifyIt on Cloudflare" } := rfl

theorem ne_T_of_isDigit {c : Char} (h : c.isDigit = true) : (c != 'T') = true := by
  by_cases he : c = 'T'
  · subst he
    exact absurd h (by decide)
  · simpa [bne_iff_ne] using he

theorem zod_take (l : List Char) (h : zodDatetimeList l = true) :
    isIsoDateShape (l.takeWhile (fun c => c != 'T')) = true := by
  unfold zodDatetimeList at h
  split at h
  · simp only [Bool.and_eq_true, decide_eq_true_eq, and_assoc] at h
    obtain ⟨h1, h2, h3, h4, h5, h6, h7, h8, h9, h10, h11, h12, h13, h14,
      h15, h16, h17, h18, h19, -⟩ := h
    subst h5 h8 h11 h14 h17
    simp [List.takeWhile, ne_T_of_isDigit h1, ne_T_of_isDigit h2,
      ne_T_of_isDigit h3, ne_T_of_isDigit h4, ne_T_of_isDigit h6,
      ne_T_of_isDigit h7, ne_T_of_isDigit h9, ne_T_of_isDigit h10,
      isIsoDateShape, h1, h2, h3, h4, h6, h7, h9, h10]
  · exact absurd h (by simp)

theorem zod_dateOnly {s : String} (h : zodDatetime s = true) :
    isIsoDateShape (splitT s).data = true :=
  zod_take s.data h

/-- C8: whenever normalization yields an all-day event, the Google
Calendar payload uses the date-only `date` variant on both sides — a
bare `YYYY-MM-DD` string with no time component — and omits `dateTime`
entirely. -/
theorem c8_allday_roundtrip {jsd : String → Option String} {today : String}
    {y : Nat} {raw : RawEventData} {tz : String} {ev : ValidatedEvent}
    (hok : validateAndNormalizeEvent jsd today y raw tz = Except.ok ev)
    (had : ev.isAllDay = true) :
    (toGoogleCalendarEvent ev).start.dateTime = none ∧
    (toGoogleCalendarEvent ev).end_.dateTime = none ∧
    ∃ ds de,
      (toGoogleCalendarEvent ev).start.date = some ds ∧
      (toGoogleCalendarEvent ev).end_.date = some de ∧
      isIsoDateShape ds.data = true ∧ isIsoDateShape de.data = true := by
  obtain ⟨hchk, hev⟩ := validateAndNormalizeEvent_ok.mp hok
  rw [← hev] at hchk
  unfold validEventCheck at hchk
  simp only [Bool.and_eq_true, and_assoc] at hchk
  obtain ⟨-, hzs, hze⟩ := hchk
  simp only [toGoogleCalendarEvent, had, if_true]
  exact ⟨trivial, trivial, splitT ev.startDateTime, splitT ev.endDateTime, rfl, rfl,
    zod_dateOnly hzs, zod_dateOnly hze⟩

/-- Witness for C8 at a concrete input: a date-only extraction produces
an all-day event whose Google Calendar payload is date-only. -/
theorem c8_witness :
    ∃ ev, validateAndNormalizeEvent (fun _ => none) "2026-10-11" 2026
      { title := some "Fair", start_date := some "2025-07-04" } "UTC" =
        Except.ok ev ∧
      (toGoogleCalendarEvent ev).start.dateTime = none ∧
      (toGoogleCalendarEvent ev).start.date = some "2025-07-04" := by
  refine ⟨mkNormEvent (fun _ => none) "2026-10-11" 2026
    { title := some "Fair", start_date := some "2025-07-04" } "UTC", rfl, ?_, rfl⟩
  exact (@c8_allday_roundtrip (fun _ => none) "2026-10-11" 2026
    { title := some "Fair", start_date := some "2025-07-04" } "UTC" _ rfl rfl).1

/-- C9: the vision-response parser is total by construction; whenever
`JSON.parse` fails on the cleaned candidate string the result is the
`Unknown Event` fallback whose description embeds a prefix of the raw
text; and in every case the `raw_text` field is set to a prefix of the
input. -/
theorem c9_parse_event_json (jsonParse : String → Option RawEventData)
    (fenceExtract : String → Option String) (s : String) :
    (∃ t, (parseEventJson jsonParse fenceExtract s).raw_text = some t ∧
      ∃ n, t.data = s.data.take n) ∧
    (jsonParse (jsonCandidate fenceExtract s) = none →
      (parseEventJson jsonParse fenceExtract s).title = some "Unknown Event" ∧
      ∃ pre, (parseEventJson jsonParse fenceExtract s).description =
        some ("Could not extract event details. Raw text: " ++ pre) ∧
        ∃ n, pre.data = s.data.take n) := by
  unfold parseEventJson
  dsimp only
  cases hp : jsonParse (jsonCandidate fenceExtract s) with
  | some parsed =>
    refine ⟨⟨_, rfl, 500, rfl⟩, fun h => absurd h (by simp)⟩
  | none =>
    refine ⟨⟨s, rfl, s.data.length, (List.take_length _).symm⟩,
      fun _ => ⟨rfl, substringTake 200 s, rfl, 200, rfl⟩⟩

/-- Witness for C9 at a concrete unparseable input: the fallback record
is produced and `raw_text` echoes the input. -/
theorem c9_witness :
    (parseEventJson (fun _ => none) (fun _ => none) "no json here").title =
      some "Unknown Event" ∧
    (parseEventJson (fun _ => none) (fun _ => none) "no json here").raw_text =
      some "no json here" :=
  ⟨((c9_parse_event_json (fun _ => none) (fun _ => none) "no json here").2 rfl).1, rfl⟩

/-- C4: the conflict query returns exactly the stored rows of the user
whose interval strictly overlaps the candidate window
(`stored.start < candidate.end` and `stored.end > candidate.start`,
so boundary-touching rows are excluded), ordered ascending by stored
start, capped at 10 (complete whenever at most 10 rows qualify). -/
theorem c4_find_conflicts (db : List EventRow) (userId s e : String) :
    (∀ c ∈ checkCalendarConflicts db userId s e,
      ∃ r ∈ db, conflictWhere userId s e r = true ∧ c = conflictProj r) ∧
    (∀ r ∈ db, conflictWhere userId s e r = true →
      db.countP (conflictWhere userId s e) ≤ 10 →
      conflictProj r ∈ checkCalendarConflicts db userId s e) ∧
    (checkCalendarConflicts db userId s e).length ≤ 10 ∧
    (checkCalendarConflicts db userId s e).Pairwise
      (fun a b => isoLe a.start b.start = true) := by
  unfold checkCalendarConflicts
  refine ⟨?_, ?_, ?_, ?_⟩
  · intro c hc
    simp only [List.mem_map] at hc
    obtain ⟨r, hr, rfl⟩ := hc
    have hr2 := List.mem_of_mem_take hr
    rw [(List.perm_insertionSort _ _).mem_iff, List.mem_filter] at hr2
    exact ⟨r, hr2.1, hr2.2, rfl⟩
  · intro r hr hw hcount
    rw [List.countP_eq_length_filter] at hcount
    have hlen : (List.insertionSort (fun a b => conflictRowLe a b = true)
        (db.filter (conflictWhere userId s e))).length ≤ 10 := by
      rw [(List.perm_insertionSort _ _).length_eq]
      exact hcount
    rw [List.take_of_length_le hlen]
    refine List.mem_map.mpr ⟨r, ?_, rfl⟩
    rw [(List.perm_insertionSort _ _).mem_iff, List.mem_filter]
    exact ⟨hr, hw⟩
  · rw [List.length_map]
    exact List.length_take_le _ _
  · refine List.pairwise_map.mpr ?_
    refine List.Pairwise.sublist (List.take_sublist _ _) ?_
    show List.Pairwise (fun a b => conflictRowLe a b = true) _
    haveI : IsTotal EventRow (fun a b => conflictRowLe a b = true) :=
      ⟨fun a b => by
        rcases Bool.or_eq_true_iff.mp
          (lexLe_total a.start_datetime.data b.start_datetime.data) with h | h
        · exact Or.inl h
        · exact Or.inr h⟩
    haveI : IsTrans EventRow (fun a b => conflictRowLe a b = true) :=
      ⟨fun a b c hab hbc => lexLe_trans hab hbc⟩
    exact List.sorted_insertionSort _ _

/-- Witness for C4 at the spec's concrete scenario: for the candidate
window 10:00-11:00 the stored event 10:30-10:45 is returned and the
boundary-touching 09:00-10:00 and 11:00-12:00 events are not. -/
theorem c4_witness :
    conflictProj
        { user_id := "u", title := "A"
          start_datetime := "2025-03-05T10:30:00-05:00"
          end_datetime := "2025-03-05T10:45:00-05:00" } ∈
      checkCalendarConflicts
        [{ user_id := "u", title := "A"
           start_datetime := "2025-03-05T10:30:00-05:00"
           end_datetime := "2025-03-05T10:45:00-05:00" },
         { user_id := "u", title := "B"
           start_datetime := "2025-03-05T09:00:00-05:00"
           end_datetime := "2025-03-05T10:00:00-05:00" },
         { user_id := "u", title := "C"
           start_datetime := "2025-03-05T11:00:00-05:00"
           end_datetime := "2025-03-05T12:00:00-05:00" }]
        "u" "2025-03-05T10:00:00-05:00" "2025-03-05T11:00:00-05:00" ∧
    checkCalendarConflicts
        [{ user_id := "u", title := "A"
           start_datetime := "2025-03-05T10:30:00-05:00"
           end_datetime := "2025-03-05T10:45:00-05:00" },
         { user_id := "u", title := "B"
           start_datetime := "2025-03-05T09:00:00-05:00"
           end_datetime := "2025-03-05T10:00:00-05:00" },
         { user_id := "u", title := "C"
           start_datetime := "2025-03-05T11:00:00-05:00"
           end_datetime := "2025-03-05T12:00:00-05:00" }]
        "u" "2025-03-05T10:00:00-05:00" "2025-03-05T11:00:00-05:00" =
      [{ title := "A", start := "2025-03-05T10:30:00-05:00"
         end_ := "2025-03-05T10:45:00-05:00", googleEventId := none }] := by
  constructor
  · exact (c4_find_conflicts _ "u" "2025-03-05T10:00:00-05:00"
      "2025-03-05T11:00:00-05:00").2.1 _ (by simp) (by decide) (by decide)
  · decide

theorem str_length_append (a b : String) : (a ++ b).length = a.length + b.length :=
  List.length_append a.data b.data

theorem isoLe_build {sd ed : String} (mid1 mid2 off : String)
    (hlen : sd.length = ed.length) (hd : lexLe sd.data ed.data = true)
    (hmlen : mid1.length = mid2.length)
    (hm : sd = ed → lexLe mid1.data mid2.data = true) :
    isoLe (sd ++ mid1 ++ off) (ed ++ mid2 ++ off) = true := by
  unfold isoLe
  rw [str_data_append, str_data_append, str_data_append, str_data_append,
    List.append_assoc, List.append_assoc]
  refine lexLe_append _ _ hlen hd ?_
  intro hEq
  exact lexLe_append _ _ hmlen (hm (String.ext hEq)) (fun _ => lexLe_refl _)

/-- C1 counterexample: a timed event starting at 23:30 with no end time
gets the wrapped default end 00:30 on the same day, so the produced
event has `endDateTime < startDateTime`; the claimed invariant fails. -/
theorem c1_counterexample :
    validateAndNormalizeEvent (fun _ => none) "2026-10-11" 2026
      { start_date := some "2025-03-05", start_time := some "23:30" }
      "America/New_York" =
    Except.ok
      { title := "Untitled Event"
        startDateTime := "2025-03-05T23:30:00-05:00"
        endDateTime := "2025-03-05T00:30:00-05:00"
        isAllDay := false
        timezone := "America/New_York"
        location := none
        description := some "---\nCreated by EventifyIt on Cloudflare" } ∧
    isoLe "2025-03-05T23:30:00-05:00" "2025-03-05T00:30:00-05:00" = false :=
  ⟨rfl, by decide⟩

/-- C1 (amended): a produced event satisfies
`startDateTime <= endDateTime` (bytewise ISO order, which is
chronological order here since both instants carry the same offset)
provided the normalized dates are 10 characters with end date not
before start date, and the normalized end time-of-day not before the
start time-of-day; without those provisos the invariant fails (end date
parsing earlier than the start date, or the +1-hour default wrapping
past midnight in the last hour of the day). -/
theorem c1_amended {jsd : String → Option String} {today : String} {y : Nat}
    {raw : RawEventData} {tz : String} {ev : ValidatedEvent}
    (hok : validateAndNormalizeEvent jsd today y raw tz = Except.ok ev)
    (hsl : (normStartDate jsd today y raw).length = 10)
    (hel : (normEndDate jsd today y raw).length = 10)
    (hd : lexLe (normStartDate jsd today y raw).data
      (normEndDate jsd today y raw).data = true)
    (htl : (normStartTime raw).length = (normEndTime raw).length)
    (ht : lexLe (normStartTime raw).data (normEndTime raw).data = true) :
    isoLe ev.startDateTime ev.endDateTime = true := by
  obtain ⟨-, hev⟩ := validateAndNormalizeEvent_ok.mp hok
  subst hev
  rw [mkNormEvent_startDateTime, mkNormEvent_endDateTime]
  by_cases hall : jsFalsy (parseTime raw.start_time) = true
  · rw [if_pos hall, if_pos hall]
    exact isoLe_build "T00:00:00" "T23:59:59" _ (hsl.trans hel.symm) hd rfl
      (fun _ => by decide)
  · rw [if_neg hall, if_neg hall]
    have hassoc : ∀ d t : String,
        d ++ "T" ++ t ++ ":00" ++ getTimezoneOffset tz =
          d ++ ("T" ++ t ++ ":00") ++ getTimezoneOffset tz := by
      intro d t
      apply String.ext
      simp [str_data_append]
    rw [hassoc, hassoc]
    refine isoLe_build _ _ _ (hsl.trans hel.symm) hd ?_ ?_
    · rw [str_length_append, str_length_append, str_length_append,
        str_length_append, htl]
    · intro hEq
      rw [str_data_append, str_data_append, str_data_append, str_data_append]
      refine lexLe_append _ _ ?_ ?_ (fun _ => lexLe_refl _)
      · show ("T".data ++ (normStartTime raw).data).length =
          ("T".data ++ (normEndTime raw).data).length
        simp only [List.length_append]
        have : (normStartTime raw).data.length = (normEndTime raw).data.length := htl
        omega
      · exact lexLe_append _ _ (congrArg List.length (rfl : "T".data = "T".data))
          (lexLe_refl _) (fun _ => ht)

/-- Witness for C1 (amended) at a concrete input whose end components
do not precede the start components. -/
theorem c1_witness :
    ∃ ev, validateAndNormalizeEvent (fun _ => none) "2026-10-11" 2026
      { start_date := some "2025-03-05", end_date := some "2025-03-06"
        start_time := some "2pm", end_time := some "4pm" }
      "America/New_York" = Except.ok ev ∧
      isoLe ev.startDateTime ev.endDateTime = true := by
  refine ⟨mkNormEvent (fun _ => none) "2026-10-11" 2026
    { start_date := some "2025-03-05", end_date := some "2025-03-06"
      start_time := some "2pm", end_time := some "4pm" } "America/New_York",
    rfl, ?_⟩
  exact @c1_amended (fun _ => none) "2026-10-11" 2026
    { start_date := some "2025-03-05", end_date := some "2025-03-06"
      start_time := some "2pm", end_time := some "4pm" }
    "America/New_York" _ rfl (by decide) (by decide) (by decide) (by decide) (by decide)

theorem except_bind_ok {α β : Type} (a : α) (f : α → Except String β) :
    (Except.ok a >>= f) = f a := rfl

theorem except_bind_error {α β : Type} (e : String) (f : α → Except String β) :
    ((Except.error e : Except String α) >>= f) = Except.error e := rfl

/-- C2 (amended): a failure of the conflict-detection storage query is
not swallowed — the check-conflicts step has no error handler, so the
query's error propagates and aborts the run before the
create-calendar-event step; only a successful query (possibly with zero
rows) yields the advisory conflict list. -/
theorem c2_amended (env : WorkflowEnv) (p : WorkflowParams) (e : String)
    (h1 : env.imageFound = true)
    (h2 : ∃ raw, env.visionResult = Except.ok raw ∧
      ∃ ev, validateAndNormalizeEvent env.jsDate env.today env.currentYear raw
        (resolveTimezone env p) = Except.ok ev)
    (h3 : env.d1Events = Except.error e) :
    runWorkflow env p = Except.error e := by
  obtain ⟨raw, hv, ev, hval⟩ := h2
  unfold runWorkflow
  simp only [if_pos h1, hv, except_bind_ok, hval, h3, except_bind_error]

/-- C2 counterexample: with every earlier step succeeding, a thrown
conflict query makes the whole run abort with the storage error instead
of proceeding to the create step with an empty conflict list. -/
theorem c2_counterexample :
    runWorkflow { baseEnv with d1Events := Except.error "D1 storage failure" }
      sampleParams = Except.error "D1 storage failure" := rfl

/-- Witness for C2 (amended) at a concrete environment. -/
theorem c2_witness :
    runWorkflow { baseEnv with d1Events := Except.error "boom" } sampleParams =
      Except.error "boom" :=
  c2_amended _ _ "boom" rfl
    ⟨sampleRaw, rfl,
      mkNormEvent (fun _ => none) "2026-10-11" 2026 sampleRaw "America/New_York", rfl⟩
    rfl

/-- C3 (amended): when the stored credential is present and its stored
expiry has not passed, the create-calendar-event step calls the remote
create once with the stored access token, and any error it throws —
including the distinguished `OAUTH_EXPIRED` raised on HTTP 401 — aborts
the run; no refresh-and-retry is attempted (the credential is refreshed
only proactively, before the create call, when the stored expiry has
passed). -/
theorem c3_amended (env : WorkflowEnv) (p : WorkflowParams) (tok : TokenRecord)
    (raw : RawEventData) (ev : ValidatedEvent) (db : List EventRow) (m : String)
    (h1 : env.imageFound = true)
    (h2 : env.visionResult = Except.ok raw)
    (h3 : validateAndNormalizeEvent env.jsDate env.today env.currentYear raw
      (resolveTimezone env p) = Except.ok ev)
    (h4 : env.d1Events = Except.ok db)
    (h5 : env.tokenRow = Except.ok (some tok))
    (h6 : (tok.expiresAt ≠ "" && env.isExpired tok.expiresAt) = false)
    (h7 : createGoogleCalendarEvent env.calendarHttp tok.accessToken ev
      (resolveCalendarId p) = Except.error m) :
    runWorkflow env p = Except.error m := by
  unfold runWorkflow
  simp only [if_pos h1, h2, except_bind_ok, h3, h4, h5, h6, h7,
    Bool.false_eq_true, if_false, except_bind_error]

/-- C3 counterexample: the stored token is valid by its expiry field,
the remote create answers 401 (`OAUTH_EXPIRED`), the refresh endpoint
works and the create would succeed with the refreshed token — yet the
run aborts with `OAUTH_EXPIRED` instead of refreshing and retrying
once. -/
theorem c3_counterexample :
    runWorkflow c3Env sampleParams = Except.error "OAUTH_EXPIRED" ∧
    refreshOAuthToken c3Env.refreshHttp c3Env.expiryIso "REF" =
      Except.ok { accessToken := "NEW", refreshToken := "REF"
                  expiresAt := "2099-01-01T00:00:00Z" } ∧
    createGoogleCalendarEvent c3Env.calendarHttp "NEW"
      (mkNormEvent (fun _ => none) "2026-10-11" 2026 sampleRaw "America/New_York")
      "primary" = Except.ok sampleResp :=
  ⟨rfl, rfl, rfl⟩

/-- Witness for C3 (amended) at the concrete 401 environment. -/
theorem c3_witness :
    runWorkflow c3Env sampleParams = Except.error "OAUTH_EXPIRED" :=
  c3_amended c3Env sampleParams sampleToken sampleRaw
    (mkNormEvent (fun _ => none) "2026-10-11" 2026 sampleRaw "America/New_York")
    [] "OAUTH_EXPIRED" rfl rfl rfl rfl rfl rfl rfl

